import Mathlib

/-!
Verification of the sequential-thinking session tracker
(`SequentialThinkingServer` in `server2.ts`): the untyped-input validator
`validateThoughtData`, the diagnostic formatter `formatThought`, and the
stateful handler `processThought` with its `thoughtHistory` log and
`branches` index.

Untyped JavaScript values reaching the handler are modelled by `JSValue`
(strings, numbers, booleans); a missing property is `Option.none`.
JavaScript numbers are modelled as integers, which covers every value the
claims exercise.  JavaScript truthiness (`!x`) is modelled by `truthy`:
`undefined`, `""`, `0` and `false` are falsy, everything else truthy.
-/

inductive JSValue where
  | str : String → JSValue
  | num : Int → JSValue
  | bool : Bool → JSValue
deriving DecidableEq

/-- JavaScript truthiness of a possibly-missing value: `undefined` (missing),
the empty string, the number `0` and `false` are falsy. -/
def truthy : Option JSValue → Bool
  | none => false
  | some (JSValue.str s) => !s.isEmpty
  | some (JSValue.num n) => !(n == 0)
  | some (JSValue.bool b) => b

/-- `typeof x === 'string'` on a possibly-missing value. -/
def isStringV : Option JSValue → Bool
  | some (JSValue.str _) => true
  | _ => false

/-- `typeof x === 'number'` on a possibly-missing value. -/
def isNumberV : Option JSValue → Bool
  | some (JSValue.num _) => true
  | _ => false

/-- `typeof x === 'boolean'` on a possibly-missing value. -/
def isBooleanV : Option JSValue → Bool
  | some (JSValue.bool _) => true
  | _ => false

/-- Extract the string payload (only used under a successful string check). -/
def getStrD : Option JSValue → String
  | some (JSValue.str s) => s
  | _ => ""

/-- Extract the numeric payload (only used under a successful number check). -/
def getNumD : Option JSValue → Int
  | some (JSValue.num n) => n
  | _ => 0

/-- Extract the boolean payload (only used under a successful boolean check). -/
def getBoolD : Option JSValue → Bool
  | some (JSValue.bool b) => b
  | _ => false

/-- JavaScript string coercion of a value, as performed when a value is used
as an object property key or interpolated into a template literal. -/
def jsToKeyString : JSValue → String
  | JSValue.str s => s
  | JSValue.num n => toString n
  | JSValue.bool b => cond b ("true") ("false")

/-- Template-literal interpolation of a possibly-missing value:
`undefined` prints as the text "undefined". -/
def jsTemplate : Option JSValue → String
  | none => "undefined"
  | some v => jsToKeyString v

/-- The raw, untyped argument object handed to `processThought`.  Each
property either holds an arbitrary JavaScript value or is absent. -/
structure RawInput where
  thought : Option JSValue := none
  thoughtNumber : Option JSValue := none
  totalThoughts : Option JSValue := none
  nextThoughtNeeded : Option JSValue := none
  isRevision : Option JSValue := none
  revisesThought : Option JSValue := none
  branchFromThought : Option JSValue := none
  branchId : Option JSValue := none
  needsMoreThoughts : Option JSValue := none
deriving DecidableEq

/-- The `ThoughtData` record produced by `validateThoughtData`.  The four
required fields are genuinely typed (the validator checks them); the five
optional fields are passed through by an unchecked cast, so at runtime they
hold whatever raw value the caller supplied — modelled as `Option JSValue`. -/
structure ThoughtData where
  thought : String
  thoughtNumber : Int
  totalThoughts : Int
  nextThoughtNeeded : Bool
  isRevision : Option JSValue
  revisesThought : Option JSValue
  branchFromThought : Option JSValue
  branchId : Option JSValue
  needsMoreThoughts : Option JSValue
deriving DecidableEq

/-- `validateThoughtData` from `server2.ts`: the required fields are checked
in source order — `thought` (truthy and a string), `thoughtNumber` (truthy
and a number), `totalThoughts` (truthy and a number), `nextThoughtNeeded`
(a boolean, no truthiness test) — throwing the corresponding message at the
first failing check; the optional fields are cast through unchecked. -/
def validateThoughtData (input : RawInput) : Except String ThoughtData :=
  if !truthy input.thought || !isStringV input.thought then
    Except.error ("Invalid thought: must be a string")
  else if !truthy input.thoughtNumber || !isNumberV input.thoughtNumber then
    Except.error ("Invalid thoughtNumber: must be a number")
  else if !truthy input.totalThoughts || !isNumberV input.totalThoughts then
    Except.error ("Invalid totalThoughts: must be a number")
  else if !isBooleanV input.nextThoughtNeeded then
    Except.error ("Invalid nextThoughtNeeded: must be a boolean")
  else
    Except.ok
      { thought := getStrD input.thought
        thoughtNumber := getNumD input.thoughtNumber
        totalThoughts := getNumD input.totalThoughts
        nextThoughtNeeded := getBoolD input.nextThoughtNeeded
        isRevision := input.isRevision
        revisesThought := input.revisesThought
        branchFromThought := input.branchFromThought
        branchId := input.branchId
        needsMoreThoughts := input.needsMoreThoughts }

/-- The session state: the private fields `thoughtHistory` and `branches` of
`SequentialThinkingServer`.  A JavaScript object with string keys preserves
insertion order, so `branches` is an insertion-ordered association list and
`Object.keys` is `List.map Prod.fst`. -/
structure SessionState where
  thoughtHistory : List ThoughtData
  branches : List (String × List ThoughtData)
deriving DecidableEq

/-- The state at construction: both containers empty. -/
def emptyState : SessionState := { thoughtHistory := [], branches := [] }

/-- `if (!branches[k]) branches[k] = []; branches[k].push(r)`: append `r` to
the sequence at key `k`, creating the key (at the end, in insertion order)
on first use. -/
def pushBranch : List (String × List ThoughtData) → String → ThoughtData →
    List (String × List ThoughtData)
  | [], k, r => [(k, [r])]
  | (k', l) :: rest, k, r =>
      if k' == k then (k', l ++ [r]) :: rest else (k', l) :: pushBranch rest k r

/-- The sequence stored under key `k` (empty when the key is absent). -/
def branchSeq : List (String × List ThoughtData) → String → List ThoughtData
  | [], _ => []
  | (k', l) :: rest, k => if k' == k then l else branchSeq rest k

/-- The self-correction performed by `processThought` before storage:
`if (thoughtNumber > totalThoughts) totalThoughts = thoughtNumber`. -/
def correctTotals (v : ThoughtData) : ThoughtData :=
  if v.thoughtNumber > v.totalThoughts then { v with totalThoughts := v.thoughtNumber } else v

/-- The two store mutations of `processThought`: push onto `thoughtHistory`,
and, when `branchFromThought` and `branchId` are both truthy, also push onto
`branches[String(branchId)]`. -/
def appendRecord (v : ThoughtData) (s : SessionState) : SessionState :=
  { thoughtHistory := s.thoughtHistory ++ [v]
    branches :=
      if truthy v.branchFromThought && truthy v.branchId then
        pushBranch s.branches (jsTemplate v.branchId) v
      else s.branches }

/-- The serialized response body.  The source emits `JSON.stringify` of an
object literal with exactly the listed keys; the body is modelled
structurally, one constructor per literal shape. -/
inductive ResponseBody where
  | success (thoughtNumber totalThoughts : Int) (nextThoughtNeeded : Bool)
      (branches : List String) (thoughtHistoryLength : Nat)
  | failure (error status : String)
deriving DecidableEq

/-- One element of the response `content` array. -/
structure ContentItem where
  type : String
  text : ResponseBody
deriving DecidableEq

/-- The envelope returned by `processThought`.  The success path returns no
`isError` key (read as falsy), modelled by `isError = false`. -/
structure ToolResponse where
  content : List ContentItem
  isError : Bool := false
deriving DecidableEq

/-- Modelled from the spec: the `chalk` styling wrappers are an external
library; in the no-color environment the spec describes (§4.3 abstracts
colors away entirely) chalk returns its argument unchanged. -/
def chalkYellow (s : String) : String := s

/-- Modelled from the spec: see `chalkYellow`. -/
def chalkGreen (s : String) : String := s

/-- Modelled from the spec: see `chalkYellow`. -/
def chalkBlue (s : String) : String := s

/-- `'─'.repeat n`. -/
def replDash (n : Nat) : String := String.mk (List.replicate n '─')

/-- `s.padEnd n`: left-align `s` and pad on the right with spaces to length
`n`; a string already at least `n` long is returned unchanged. -/
def padEnd (s : String) (n : Nat) : String :=
  s ++ String.mk (List.replicate (n - s.length) ' ')

/-- `formatThought` from `server2.ts`: pick prefix and context by precedence
on truthiness of `isRevision` then `branchFromThought`, build the header,
and render the framed box whose border is `max(header.length, thought.length)
+ 4` dashes, with the thought padded to `border.length - 2`. -/
def formatThought (td : ThoughtData) : String :=
  let pc : String × String :=
    if truthy td.isRevision then
      (chalkYellow ("🔄 Revision"),
       " (revising thought " ++ jsTemplate td.revisesThought ++ ")")
    else if truthy td.branchFromThought then
      (chalkGreen ("🌿 Branch"),
       " (from thought " ++ jsTemplate td.branchFromThought ++ ", ID: " ++
         jsTemplate td.branchId ++ ")")
    else
      (chalkBlue ("💭 Thought"), "")
  let header := pc.1 ++ " " ++ toString td.thoughtNumber ++ "/" ++
    toString td.totalThoughts ++ pc.2
  let border := replDash (max header.length td.thought.length + 4)
  "\n┌" ++ border ++ "┐\n│ " ++ header ++ " │\n├" ++ border ++ "┤\n│ " ++
    padEnd td.thought (border.length - 2) ++ " │\n└" ++ border ++ "┘"

/-- `processThought` from `server2.ts`: validate; on failure return the
error envelope (`{error, status: 'failed'}`, `isError: true`) leaving the
state untouched; on success self-correct `totalThoughts`, push to history
and (conditionally) to the branch index, log the formatted thought, and
return the success envelope read from the post-append state. -/
def processThought (input : RawInput) (s : SessionState) :
    ToolResponse × SessionState :=
  match validateThoughtData input with
  | Except.error msg =>
      ({ content := [{ type := "text", text := ResponseBody.failure msg ("failed") }],
         isError := true }, s)
  | Except.ok v0 =>
      let v := correctTotals v0
      let s' := appendRecord v s
      let _fmt := formatThought v
      let body := ResponseBody.success v.thoughtNumber v.totalThoughts
        v.nextThoughtNeeded (s'.branches.map (fun p => p.1))
        s'.thoughtHistory.length
      ({ content := [{ type := "text", text := body }], isError := false }, s')

/-- The read-only summary drawn from the state when the success envelope is
built: the known branch identifiers (`Object.keys`, insertion order) and the
history length. -/
def summaryOf (s : SessionState) : List String × Nat :=
  (s.branches.map (fun p => p.1), s.thoughtHistory.length)

/-- Process a whole sequence of calls in order. -/
def runInputs (s : SessionState) : List RawInput → SessionState
  | [] => s
  | i :: rest => runInputs (processThought i s).2 rest

/-- Claim-side predicate: the value is a truthy (non-empty) string —
exactly what passes the validator's `thought` check. -/
def isNonEmptyStr : Option JSValue → Bool
  | some (JSValue.str s) => !s.isEmpty
  | _ => false

/-- Claim-side predicate: the value is a truthy (nonzero) number —
exactly what passes the validator's numeric checks. -/
def isNonZeroNum : Option JSValue → Bool
  | some (JSValue.num n) => !(n == 0)
  | _ => false

/-- Claim-side frame builder, following the spec's words: frame width is
`max(header length, thought length) + 4`, and the body row holds the thought
left-aligned and padded to frame width minus 2 between the borders. -/
def specFrame (header thought : String) : String :=
  let w := max header.length thought.length + 4
  "\n┌" ++ replDash w ++ "┐\n│ " ++ header ++ " │\n├" ++ replDash w ++ "┤\n│ " ++
    padEnd thought (w - 2) ++ " │\n└" ++ replDash w ++ "┘"

/-- Scenario input 1 of §8: step1, 1/3, more needed. -/
def exStep1 : RawInput :=
  { thought := some (JSValue.str "step1"), thoughtNumber := some (JSValue.num 1),
    totalThoughts := some (JSValue.num 3), nextThoughtNeeded := some (JSValue.bool true) }

/-- Scenario input 2 of §8: step2 claims number 5 of estimated 3, done. -/
def exStep2 : RawInput :=
  { thought := some (JSValue.str "step2"), thoughtNumber := some (JSValue.num 5),
    totalThoughts := some (JSValue.num 3), nextThoughtNeeded := some (JSValue.bool false) }

/-- An input whose `thought` is present and is a string, yet the empty
string: every field carries the type the spec asks for. -/
def exEmptyThought : RawInput :=
  { thought := some (JSValue.str ""), thoughtNumber := some (JSValue.num 1),
    totalThoughts := some (JSValue.num 1), nextThoughtNeeded := some (JSValue.bool true) }

/-- An input whose `thoughtNumber` is present and numeric but `0`. -/
def exZeroNumber : RawInput :=
  { thought := some (JSValue.str "a"), thoughtNumber := some (JSValue.num 0),
    totalThoughts := some (JSValue.num 1), nextThoughtNeeded := some (JSValue.bool true) }

/-- A valid input with both branch fields present, `branchFromThought = 0`. -/
def exZeroBranch : RawInput :=
  { thought := some (JSValue.str "a"), thoughtNumber := some (JSValue.num 1),
    totalThoughts := some (JSValue.num 1), nextThoughtNeeded := some (JSValue.bool true),
    branchFromThought := some (JSValue.num 0), branchId := some (JSValue.str "b1") }

/-- A valid input registering a branch: `branchFromThought = 1`, id b1. -/
def exBranch : RawInput :=
  { thought := some (JSValue.str "alt"), thoughtNumber := some (JSValue.num 2),
    totalThoughts := some (JSValue.num 3), nextThoughtNeeded := some (JSValue.bool true),
    branchFromThought := some (JSValue.num 1), branchId := some (JSValue.str "b1") }

/-- An input missing the required `thoughtNumber` field. -/
def exMissingNumber : RawInput :=
  { thought := some (JSValue.str "a"), nextThoughtNeeded := some (JSValue.bool true) }

/-- An input missing the required `thought` field. -/
def exMissingThought : RawInput :=
  { thoughtNumber := some (JSValue.num 1), totalThoughts := some (JSValue.num 1),
    nextThoughtNeeded := some (JSValue.bool true) }

/-- The validated record for `exStep1`. -/
def tdStep1 : ThoughtData :=
  { thought := "step1", thoughtNumber := 1, totalThoughts := 3, nextThoughtNeeded := true,
    isRevision := none, revisesThought := none, branchFromThought := none,
    branchId := none, needsMoreThoughts := none }

/-- A plain record (no revision, no branch) used to instantiate theorems. -/
def tdPlain : ThoughtData :=
  { thought := "hi", thoughtNumber := 1, totalThoughts := 2, nextThoughtNeeded := true,
    isRevision := none, revisesThought := none, branchFromThought := none,
    branchId := none, needsMoreThoughts := none }

/-- A revision record used to instantiate the formatter theorem. -/
def tdRevision : ThoughtData :=
  { thought := "fix", thoughtNumber := 3, totalThoughts := 3, nextThoughtNeeded := false,
    isRevision := some (JSValue.bool true), revisesThought := some (JSValue.num 2),
    branchFromThought := none, branchId := none, needsMoreThoughts := none }

/-- The validated record for `exStep2`. -/
def tdStep2 : ThoughtData :=
  { thought := "step2", thoughtNumber := 5, totalThoughts := 3, nextThoughtNeeded := false,
    isRevision := none, revisesThought := none, branchFromThought := none,
    branchId := none, needsMoreThoughts := none }

/-- The validated record for `exBranch`. -/
def tdBranch : ThoughtData :=
  { thought := "alt", thoughtNumber := 2, totalThoughts := 3, nextThoughtNeeded := true,
    isRevision := none, revisesThought := none,
    branchFromThought := some (JSValue.num 1), branchId := some (JSValue.str "b1"),
    needsMoreThoughts := none }

lemma thought_guard (t : Option JSValue) : (!truthy t || !isStringV t) = !isNonEmptyStr t := by
  cases t with
  | none => rfl
  | some v => cases v <;> simp [truthy, isStringV, isNonEmptyStr]

lemma num_guard (t : Option JSValue) : (!truthy t || !isNumberV t) = !isNonZeroNum t := by
  cases t with
  | none => rfl
  | some v => cases v <;> simp [truthy, isNumberV, isNonZeroNum]

lemma processThought_error (i : RawInput) (s : SessionState) (msg : String)
    (h : validateThoughtData i = Except.error msg) :
    processThought i s =
      (ToolResponse.mk [ContentItem.mk ("text") (ResponseBody.failure msg ("failed"))] true,
       s) := by
  simp [processThought, h]

lemma processThought_ok (i : RawInput) (s : SessionState) (td : ThoughtData)
    (h : validateThoughtData i = Except.ok td) :
    processThought i s =
      (ToolResponse.mk [ContentItem.mk ("text") (ResponseBody.success
          (correctTotals td).thoughtNumber (correctTotals td).totalThoughts
          (correctTotals td).nextThoughtNeeded
          ((appendRecord (correctTotals td) s).branches.map (fun p => p.1))
          (appendRecord (correctTotals td) s).thoughtHistory.length)] false,
       appendRecord (correctTotals td) s) := by
  simp [processThought, h]

lemma correctTotals_fields (v : ThoughtData) :
    (correctTotals v).thought = v.thought ∧
    (correctTotals v).thoughtNumber = v.thoughtNumber ∧
    (correctTotals v).nextThoughtNeeded = v.nextThoughtNeeded ∧
    (correctTotals v).isRevision = v.isRevision ∧
    (correctTotals v).revisesThought = v.revisesThought ∧
    (correctTotals v).branchFromThought = v.branchFromThought ∧
    (correctTotals v).branchId = v.branchId ∧
    (correctTotals v).needsMoreThoughts = v.needsMoreThoughts := by
  unfold correctTotals
  split <;> simp

lemma correctTotals_totalThoughts (v : ThoughtData) :
    (correctTotals v).totalThoughts =
      (if v.thoughtNumber > v.totalThoughts then v.thoughtNumber else v.totalThoughts) := by
  unfold correctTotals
  split <;> simp

/-- Claim C1: for every input accepted by the validator, the record stored in
history (and the `totalThoughts` echoed in the success envelope) carries
`totalThoughts = thoughtNumber` when the input's `thoughtNumber` exceeds its
`totalThoughts`, and the input's `totalThoughts` unchanged otherwise; the
correction is applied to the record before it is appended. -/
theorem claim_C1_selfCorrection (i : RawInput) (s : SessionState) (td : ThoughtData)
    (h : validateThoughtData i = Except.ok td) :
    ∃ v, (processThought i s).2.thoughtHistory = s.thoughtHistory ++ [v] ∧
      v.totalThoughts = (if td.thoughtNumber > td.totalThoughts then td.thoughtNumber
        else td.totalThoughts) ∧
      (processThought i s).1.content = [ContentItem.mk ("text") (ResponseBody.success
        v.thoughtNumber v.totalThoughts v.nextThoughtNeeded
        ((processThought i s).2.branches.map (fun p => p.1))
        (processThought i s).2.thoughtHistory.length)] := by
  refine ⟨correctTotals td, ?_, correctTotals_totalThoughts td, ?_⟩
  · rw [processThought_ok i s td h]
    rfl
  · rw [processThought_ok i s td h]

/-- Witness for C1, at the §8 scenario input whose `thoughtNumber` 5 exceeds
its `totalThoughts` 3. -/
theorem claim_C1_selfCorrection_witness :
    validateThoughtData exStep2 = Except.ok tdStep2 ∧
    (∃ v, (processThought exStep2 emptyState).2.thoughtHistory =
        emptyState.thoughtHistory ++ [v] ∧
      v.totalThoughts = (if tdStep2.thoughtNumber > tdStep2.totalThoughts
        then tdStep2.thoughtNumber else tdStep2.totalThoughts) ∧
      (processThought exStep2 emptyState).1.content = [ContentItem.mk ("text")
        (ResponseBody.success v.thoughtNumber v.totalThoughts v.nextThoughtNeeded
          ((processThought exStep2 emptyState).2.branches.map (fun p => p.1))
          (processThought exStep2 emptyState).2.thoughtHistory.length)]) :=
  ⟨by rfl, claim_C1_selfCorrection exStep2 emptyState tdStep2 (by rfl)⟩

/-- Claim C4: a call that passes validation grows the history by exactly one;
no call ever shrinks it, and across any sequence of calls the history length
is monotone — the log is append-only for the session's lifetime. -/
theorem claim_C4_appendOnly :
    (∀ (i : RawInput) (s : SessionState) (td : ThoughtData),
      validateThoughtData i = Except.ok td →
      (processThought i s).2.thoughtHistory.length = s.thoughtHistory.length + 1) ∧
    (∀ (i : RawInput) (s : SessionState),
      s.thoughtHistory.length ≤ (processThought i s).2.thoughtHistory.length) ∧
    (∀ (inputs : List RawInput) (s : SessionState),
      s.thoughtHistory.length ≤ (runInputs s inputs).thoughtHistory.length) := by
  have step : ∀ (i : RawInput) (s : SessionState),
      s.thoughtHistory.length ≤ (processThought i s).2.thoughtHistory.length := by
    intro i s
    cases h : validateThoughtData i with
    | error msg => rw [processThought_error i s msg h]
    | ok td =>
        rw [processThought_ok i s td h]
        simp [appendRecord]
  refine ⟨?_, step, ?_⟩
  · intro i s td h
    rw [processThought_ok i s td h]
    simp [appendRecord]
  · intro inputs
    induction inputs with
    | nil => intro s; exact Nat.le_refl _
    | cons i rest ih =>
        intro s
        exact Nat.le_trans (step i s) (ih (processThought i s).2)

/-- Witness for C4, at the first §8 scenario input from the empty session. -/
theorem claim_C4_appendOnly_witness :
    validateThoughtData exStep1 = Except.ok tdStep1 ∧
    (processThought exStep1 emptyState).2.thoughtHistory.length =
      emptyState.thoughtHistory.length + 1 :=
  ⟨by rfl, claim_C4_appendOnly.1 exStep1 emptyState tdStep1 (by rfl)⟩

/-- Claim C5: `processThought` never raises: a validation failure yields an
envelope with the failure marker set whose body has exactly the keys `error`
(the failure message) and `status = 'failed'`, leaving the state — hence the
history length — untouched; a missing `thought` produces the message
"Invalid thought: must be a string". -/
theorem claim_C5_errorEnvelope (i : RawInput) (s : SessionState) (msg : String)
    (h : validateThoughtData i = Except.error msg) :
    processThought i s =
      (ToolResponse.mk [ContentItem.mk ("text") (ResponseBody.failure msg ("failed"))] true,
       s) ∧
    (processThought i s).2.thoughtHistory.length = s.thoughtHistory.length ∧
    (i.thought = none → msg = "Invalid thought: must be a string") := by
  refine ⟨processThought_error i s msg h, ?_, ?_⟩
  · rw [processThought_error i s msg h]
  · intro hn
    unfold validateThoughtData at h
    rw [hn] at h
    simp [truthy, isStringV] at h
    exact h.symm

/-- Witness for C5, at an input missing `thought`. -/
theorem claim_C5_errorEnvelope_witness :
    validateThoughtData exMissingThought =
      Except.error ("Invalid thought: must be a string") ∧
    (processThought exMissingThought emptyState =
      (ToolResponse.mk [ContentItem.mk ("text") (ResponseBody.failure
        ("Invalid thought: must be a string") ("failed"))] true, emptyState) ∧
     (processThought exMissingThought emptyState).2.thoughtHistory.length =
       emptyState.thoughtHistory.length ∧
     (exMissingThought.thought = none →
       "Invalid thought: must be a string" = "Invalid thought: must be a string")) :=
  ⟨by rfl, claim_C5_errorEnvelope exMissingThought emptyState
    ("Invalid thought: must be a string") (by rfl)⟩

/-- Claim C10: a call that fails validation leaves the entire session state
unchanged — the history and the whole branches mapping (key list and every
branch sequence) are identical before and after. -/
theorem claim_C10_errorAtomicity (i : RawInput) (s : SessionState) (msg : String)
    (h : validateThoughtData i = Except.error msg) :
    (processThought i s).2 = s ∧
    (processThought i s).2.thoughtHistory = s.thoughtHistory ∧
    (processThought i s).2.branches.map (fun p => p.1) = s.branches.map (fun p => p.1) ∧
    (∀ k, branchSeq (processThought i s).2.branches k = branchSeq s.branches k) := by
  have hs : (processThought i s).2 = s := by
    rw [processThought_error i s msg h]
  exact ⟨hs, by rw [hs], by rw [hs], fun k => by rw [hs]⟩

/-- Witness for C10, at an input missing `thought`, from a one-branch state. -/
theorem claim_C10_errorAtomicity_witness :
    validateThoughtData exMissingThought =
      Except.error ("Invalid thought: must be a string") ∧
    ((processThought exMissingThought (processThought exBranch emptyState).2).2 =
        (processThought exBranch emptyState).2 ∧
     (processThought exMissingThought (processThought exBranch emptyState).2).2.thoughtHistory =
        (processThought exBranch emptyState).2.thoughtHistory ∧
     (processThought exMissingThought
        (processThought exBranch emptyState).2).2.branches.map (fun p => p.1) =
        (processThought exBranch emptyState).2.branches.map (fun p => p.1) ∧
     (∀ k, branchSeq
        (processThought exMissingThought
          (processThought exBranch emptyState).2).2.branches k =
        branchSeq (processThought exBranch emptyState).2.branches k)) :=
  ⟨by rfl, claim_C10_errorAtomicity exMissingThought
    (processThought exBranch emptyState).2 ("Invalid thought: must be a string") (by rfl)⟩

/-- Counterexample to C2 as stated: in `exEmptyThought` every required field
is present with its required type (`thought` is a string, the numbers are
numbers, the flag is a boolean), so the claim says validation succeeds — yet
the validator rejects it; and in `exZeroNumber` the `thoughtNumber` is
present and numeric but out of range (`0`), which the claim says the
validator does not reject — yet it does. -/
theorem claim_C2_counterexample :
    exEmptyThought.thought = some (JSValue.str "") ∧
    isStringV exEmptyThought.thought = true ∧
    isNumberV exEmptyThought.thoughtNumber = true ∧
    isNumberV exEmptyThought.totalThoughts = true ∧
    isBooleanV exEmptyThought.nextThoughtNeeded = true ∧
    validateThoughtData exEmptyThought =
      Except.error ("Invalid thought: must be a string") ∧
    exZeroNumber.thoughtNumber = some (JSValue.num 0) ∧
    isNumberV exZeroNumber.thoughtNumber = true ∧
    validateThoughtData exZeroNumber =
      Except.error ("Invalid thoughtNumber: must be a number") :=
  ⟨rfl, rfl, rfl, rfl, rfl, rfl, rfl, rfl, rfl⟩

/-- Claim C2 (amended): the validator succeeds iff `thought` is a truthy
(non-empty) string, `thoughtNumber` and `totalThoughts` are truthy (nonzero)
numbers, and `nextThoughtNeeded` is a boolean; when it fails, the error
names the first violated field in the precedence order `thought`,
`thoughtNumber`, `totalThoughts`, `nextThoughtNeeded`; beyond the
truthiness-and-type tests no range check is applied (negative or oversized
numbers are accepted). -/
theorem claim_C2_validator (i : RawInput) :
    ((∃ td, validateThoughtData i = Except.ok td) ↔
      (isNonEmptyStr i.thought = true ∧ isNonZeroNum i.thoughtNumber = true ∧
       isNonZeroNum i.totalThoughts = true ∧ isBooleanV i.nextThoughtNeeded = true)) ∧
    (isNonEmptyStr i.thought = false →
      validateThoughtData i = Except.error ("Invalid thought: must be a string")) ∧
    (isNonEmptyStr i.thought = true → isNonZeroNum i.thoughtNumber = false →
      validateThoughtData i = Except.error ("Invalid thoughtNumber: must be a number")) ∧
    (isNonEmptyStr i.thought = true → isNonZeroNum i.thoughtNumber = true →
      isNonZeroNum i.totalThoughts = false →
      validateThoughtData i = Except.error ("Invalid totalThoughts: must be a number")) ∧
    (isNonEmptyStr i.thought = true → isNonZeroNum i.thoughtNumber = true →
      isNonZeroNum i.totalThoughts = true → isBooleanV i.nextThoughtNeeded = false →
      validateThoughtData i =
        Except.error ("Invalid nextThoughtNeeded: must be a boolean")) := by
  unfold validateThoughtData
  rw [thought_guard i.thought, num_guard i.thoughtNumber, num_guard i.totalThoughts]
  cases hA : isNonEmptyStr i.thought <;> cases hB : isNonZeroNum i.thoughtNumber <;>
    cases hC : isNonZeroNum i.totalThoughts <;> cases hD : isBooleanV i.nextThoughtNeeded <;>
    simp

/-- Witness for C2, at an input whose `thought` passes and whose
`thoughtNumber` is missing: the error names `thoughtNumber`. -/
theorem claim_C2_validator_witness :
    isNonEmptyStr exMissingNumber.thought = true ∧
    isNonZeroNum exMissingNumber.thoughtNumber = false ∧
    validateThoughtData exMissingNumber =
      Except.error ("Invalid thoughtNumber: must be a number") :=
  ⟨by decide, by decide, (claim_C2_validator exMissingNumber).2.2.1 (by decide) (by decide)⟩

lemma branchSeq_pushBranch (bs : List (String × List ThoughtData)) (k : String)
    (r : ThoughtData) (k' : String) :
    branchSeq (pushBranch bs k r) k' =
      if k == k' then branchSeq bs k' ++ [r] else branchSeq bs k' := by
  induction bs with
  | nil =>
      simp only [pushBranch, branchSeq]
      by_cases h : k = k' <;> simp [h, branchSeq]
  | cons p rest ih =>
      obtain ⟨k0, l⟩ := p
      by_cases h0 : k0 = k
      · subst h0
        by_cases h1 : k0 = k' <;> simp [pushBranch, branchSeq, h1]
      · by_cases h1 : k0 = k'
        · subst h1
          have hkk : ¬(k = k0) := fun he => h0 he.symm
          simp [pushBranch, branchSeq, h0, hkk]
        · simp [pushBranch, branchSeq, h0, h1, ih]

lemma branchesInHistory_step (i : RawInput) (s : SessionState)
    (h : ∀ k x, x ∈ branchSeq s.branches k → x ∈ s.thoughtHistory) :
    ∀ k x, x ∈ branchSeq (processThought i s).2.branches k →
      x ∈ (processThought i s).2.thoughtHistory := by
  intro k x hx
  cases hv : validateThoughtData i with
  | error msg =>
      rw [processThought_error i s msg hv] at hx ⊢
      exact h k x hx
  | ok td =>
      rw [processThought_ok i s td hv] at hx ⊢
      simp only [appendRecord] at hx ⊢
      by_cases hc : (truthy (correctTotals td).branchFromThought &&
          truthy (correctTotals td).branchId) = true
      · rw [if_pos hc, branchSeq_pushBranch] at hx
        by_cases hk : jsTemplate (correctTotals td).branchId = k
        · simp only [hk, beq_self_eq_true, if_pos] at hx
          rcases List.mem_append.mp hx with hx | hx
          · exact List.mem_append_left _ (h k x hx)
          · simp only [List.mem_singleton] at hx
            subst hx
            simp
        · have : (jsTemplate (correctTotals td).branchId == k) = false := by
            simp [hk]
          rw [this] at hx
          simp only [if_neg Bool.false_ne_true] at hx
          exact List.mem_append_left _ (h k x hx)
      · rw [if_neg hc] at hx
        exact List.mem_append_left _ (h k x hx)

lemma branchesInHistory_run (inputs : List RawInput) :
    ∀ s : SessionState, (∀ k x, x ∈ branchSeq s.branches k → x ∈ s.thoughtHistory) →
      ∀ k x, x ∈ branchSeq (runInputs s inputs).branches k →
        x ∈ (runInputs s inputs).thoughtHistory := by
  induction inputs with
  | nil =>
      intro s h
      simpa [runInputs] using h
  | cons i rest ih =>
      intro s h
      simp only [runInputs]
      exact ih (processThought i s).2 (branchesInHistory_step i s h)

/-- Counterexample to C3 as stated: `exZeroBranch` passes validation with
`branchFromThought` and `branchId` both present (`0` and "b1"), so the claim
says the record is appended to `branches["b1"]` — yet the call leaves the
branch index empty (the source tests truthiness, and `0` is falsy), even
though the record did reach the history. -/
theorem claim_C3_counterexample :
    (∃ td, validateThoughtData exZeroBranch = Except.ok td ∧
      td.branchFromThought = some (JSValue.num 0) ∧
      td.branchId = some (JSValue.str "b1")) ∧
    (processThought exZeroBranch emptyState).2.thoughtHistory.length = 1 ∧
    (processThought exZeroBranch emptyState).2.branches = [] ∧
    branchSeq (processThought exZeroBranch emptyState).2.branches "b1" = [] :=
  ⟨⟨{ thought := "a", thoughtNumber := 1, totalThoughts := 1, nextThoughtNeeded := true,
      isRevision := none, revisesThought := none,
      branchFromThought := some (JSValue.num 0), branchId := some (JSValue.str "b1"),
      needsMoreThoughts := none }, rfl, rfl, rfl⟩, rfl, rfl, rfl⟩

/-- Claim C3 (amended): for every valid input whose `branchFromThought` is
present and truthy and whose `branchId` is a non-empty string, the call
appends the stored record to `branches[branchId]` (creating the branch
sequence on first use) in call order; and in every session state reachable
from the empty state, every record in any branch sequence also appears in
the history. -/
theorem claim_C3_branchIndex :
    (∀ (i : RawInput) (s : SessionState) (td : ThoughtData) (bs : String),
      validateThoughtData i = Except.ok td →
      truthy td.branchFromThought = true →
      td.branchId = some (JSValue.str bs) → bs ≠ "" →
      branchSeq (processThought i s).2.branches bs =
        branchSeq s.branches bs ++ [correctTotals td] ∧
      (processThought i s).2.thoughtHistory = s.thoughtHistory ++ [correctTotals td]) ∧
    (∀ (inputs : List RawInput) (k : String) (x : ThoughtData),
      x ∈ branchSeq (runInputs emptyState inputs).branches k →
      x ∈ (runInputs emptyState inputs).thoughtHistory) := by
  constructor
  · intro i s td bs h hbf hbid hbs
    obtain ⟨-, -, -, -, -, hbf', hbid', -⟩ := correctTotals_fields td
    have hem : bs.isEmpty = false := by
      cases he : bs.isEmpty
      · rfl
      · exact absurd ((String.isEmpty_iff bs).mp he) hbs
    have htr : truthy (correctTotals td).branchId = true := by
      rw [hbid', hbid]
      simp [truthy, hem]
    have hcond : (truthy (correctTotals td).branchFromThought &&
        truthy (correctTotals td).branchId) = true := by
      rw [hbf', htr, hbf]
      rfl
    have hkey : jsTemplate (correctTotals td).branchId = bs := by
      rw [hbid', hbid]
      rfl
    rw [processThought_ok i s td h]
    constructor
    · simp only [appendRecord, if_pos hcond]
      rw [branchSeq_pushBranch, hkey]
      simp
    · simp [appendRecord]
  · intro inputs k x
    exact branchesInHistory_run inputs emptyState (by intro k x hx; simp [branchSeq, emptyState] at hx) k x

/-- Witness for C3, registering branch "b1" from the empty session. -/
theorem claim_C3_branchIndex_witness :
    validateThoughtData exBranch = Except.ok tdBranch ∧
    truthy tdBranch.branchFromThought = true ∧
    (branchSeq (processThought exBranch emptyState).2.branches "b1" =
        branchSeq emptyState.branches "b1" ++ [correctTotals tdBranch] ∧
     (processThought exBranch emptyState).2.thoughtHistory =
        emptyState.thoughtHistory ++ [correctTotals tdBranch]) :=
  ⟨by rfl, by decide, claim_C3_branchIndex.1 exBranch emptyState tdBranch "b1" (by rfl)
    (by decide) (by rfl) (by decide)⟩

lemma length_replDash (n : Nat) : (replDash n).length = n := by
  simp [replDash, String.length]

/-- Claim C6: the formatter picks label and suffix by precedence — a record
marked `isRevision = true` gets the Revision label with suffix
"(revising thought N)" for N the `revisesThought`; otherwise a record with a
`branchFromThought` present (a positive step number, per the data model)
gets the Branch label with suffix "(from thought N, ID: X)" for X the
`branchId`; otherwise the plain Thought label with no suffix — and the
rendered frame (see `specFrame`) has width `max(header length, thought
length) + 4` with the thought text left-aligned and padded between the
borders of the body row. -/
theorem claim_C6_formatter (td : ThoughtData) :
    (∀ r : Int, td.isRevision = some (JSValue.bool true) →
      td.revisesThought = some (JSValue.num r) →
      formatThought td = specFrame ("🔄 Revision" ++ " " ++ toString td.thoughtNumber ++
        "/" ++ toString td.totalThoughts ++
        (" (revising thought " ++ toString r ++ ")")) td.thought) ∧
    (∀ (m : Int) (bid : String),
      (td.isRevision = none ∨ td.isRevision = some (JSValue.bool false)) →
      1 ≤ m → td.branchFromThought = some (JSValue.num m) →
      td.branchId = some (JSValue.str bid) →
      formatThought td = specFrame ("🌿 Branch" ++ " " ++ toString td.thoughtNumber ++
        "/" ++ toString td.totalThoughts ++
        (" (from thought " ++ toString m ++ ", ID: " ++ bid ++ ")")) td.thought) ∧
    ((td.isRevision = none ∨ td.isRevision = some (JSValue.bool false)) →
      td.branchFromThought = none →
      formatThought td = specFrame ("💭 Thought" ++ " " ++ toString td.thoughtNumber ++
        "/" ++ toString td.totalThoughts) td.thought) := by
  refine ⟨?_, ?_, ?_⟩
  · intro r hrev hrth
    simp [formatThought, specFrame, hrev, hrth, truthy, jsTemplate, jsToKeyString,
      chalkYellow, length_replDash]
  · intro m bid hrev hm hbf hbid
    have hm0 : (m == 0) = false := beq_eq_false_iff_ne.mpr (by omega)
    rcases hrev with hrev | hrev <;>
      simp [formatThought, specFrame, hrev, hbf, hbid, hm0, truthy, jsTemplate,
        jsToKeyString, chalkGreen, length_replDash]
  · intro hrev hbf
    rcases hrev with hrev | hrev <;>
      simp [formatThought, specFrame, hrev, hbf, truthy, jsTemplate, jsToKeyString,
        chalkBlue, length_replDash]

/-- Witness for C6, at a concrete revision record and a concrete plain
record. -/
theorem claim_C6_formatter_witness :
    tdRevision.isRevision = some (JSValue.bool true) ∧
    formatThought tdRevision = specFrame ("🔄 Revision" ++ " " ++
      toString tdRevision.thoughtNumber ++ "/" ++ toString tdRevision.totalThoughts ++
      (" (revising thought " ++ toString (2 : Int) ++ ")")) tdRevision.thought ∧
    formatThought tdPlain = specFrame ("💭 Thought" ++ " " ++
      toString tdPlain.thoughtNumber ++ "/" ++ toString tdPlain.totalThoughts)
      tdPlain.thought :=
  ⟨rfl, (claim_C6_formatter tdRevision).1 2 rfl rfl,
   (claim_C6_formatter tdPlain).2.2 (Or.inl rfl) rfl⟩

/-- Claim C7: the two §8 scenarios — step1 (1/3) from the empty session
yields the envelope (1, 3, true, no branches, history length 1), then step2
claiming number 5 of 3 yields totalThoughts corrected to 5 and history
length 2 — and in general the success envelope carries exactly the
validated `thoughtNumber`, the possibly-corrected `totalThoughts`, the
caller's `nextThoughtNeeded`, the current branch identifier list, and the
current history length. -/
theorem claim_C7_envelope :
    (processThought exStep1 emptyState).1 =
      ToolResponse.mk [ContentItem.mk ("text") (ResponseBody.success 1 3 true [] 1)]
        false ∧
    (processThought exStep2 (processThought exStep1 emptyState).2).1 =
      ToolResponse.mk [ContentItem.mk ("text") (ResponseBody.success 5 5 false [] 2)]
        false ∧
    (∀ (i : RawInput) (s : SessionState) (td : ThoughtData),
      validateThoughtData i = Except.ok td →
      processThought i s =
        (ToolResponse.mk [ContentItem.mk ("text") (ResponseBody.success
            td.thoughtNumber (correctTotals td).totalThoughts td.nextThoughtNeeded
            ((processThought i s).2.branches.map (fun p => p.1))
            (processThought i s).2.thoughtHistory.length)] false,
         appendRecord (correctTotals td) s)) := by
  refine ⟨by decide, by decide, ?_⟩
  intro i s td h
  obtain ⟨-, htn, hntn, -, -, -, -, -⟩ := correctTotals_fields td
  rw [processThought_ok i s td h, htn, hntn]

/-- Witness for C7's general clause, at the first scenario input. -/
theorem claim_C7_envelope_witness :
    validateThoughtData exStep1 = Except.ok tdStep1 ∧
    processThought exStep1 emptyState =
      (ToolResponse.mk [ContentItem.mk ("text") (ResponseBody.success
          tdStep1.thoughtNumber (correctTotals tdStep1).totalThoughts
          tdStep1.nextThoughtNeeded
          ((processThought exStep1 emptyState).2.branches.map (fun p => p.1))
          (processThought exStep1 emptyState).2.thoughtHistory.length)] false,
       appendRecord (correctTotals tdStep1) emptyState) :=
  ⟨by rfl, claim_C7_envelope.2.2 exStep1 emptyState tdStep1 (by rfl)⟩

/-- Claim C8: the record a successful call appends (to the history, and to
its branch sequence when registered) agrees with the validator's output on
every field except possibly `totalThoughts`; and history is only ever
extended — after any further sequence of calls, the earlier history is a
prefix of the later one, entries untouched. -/
theorem claim_C8_immutableRecords :
    (∀ (i : RawInput) (s : SessionState) (td : ThoughtData),
      validateThoughtData i = Except.ok td →
      ∃ v, (processThought i s).2.thoughtHistory = s.thoughtHistory ++ [v] ∧
        v.thought = td.thought ∧ v.thoughtNumber = td.thoughtNumber ∧
        v.nextThoughtNeeded = td.nextThoughtNeeded ∧ v.isRevision = td.isRevision ∧
        v.revisesThought = td.revisesThought ∧
        v.branchFromThought = td.branchFromThought ∧ v.branchId = td.branchId ∧
        v.needsMoreThoughts = td.needsMoreThoughts ∧
        ((truthy v.branchFromThought && truthy v.branchId) = true →
          branchSeq (processThought i s).2.branches (jsTemplate v.branchId) =
            branchSeq s.branches (jsTemplate v.branchId) ++ [v])) ∧
    (∀ (inputs : List RawInput) (s : SessionState),
      ∃ t, (runInputs s inputs).thoughtHistory = s.thoughtHistory ++ t) := by
  have step : ∀ (i : RawInput) (s : SessionState),
      ∃ t, (processThought i s).2.thoughtHistory = s.thoughtHistory ++ t := by
    intro i s
    cases hv : validateThoughtData i with
    | error msg =>
        refine ⟨[], ?_⟩
        rw [processThought_error i s msg hv]
        simp
    | ok td =>
        refine ⟨[correctTotals td], ?_⟩
        rw [processThought_ok i s td hv]
        rfl
  constructor
  · intro i s td h
    obtain ⟨h1, h2, h3, h4, h5, h6, h7, h8⟩ := correctTotals_fields td
    refine ⟨correctTotals td, ?_, h1, h2, h3, h4, h5, h6, h7, h8, ?_⟩
    · rw [processThought_ok i s td h]
      rfl
    · intro hc
      rw [processThought_ok i s td h]
      simp only [appendRecord, if_pos hc]
      rw [branchSeq_pushBranch]
      simp
  · intro inputs
    induction inputs with
    | nil => intro s; exact ⟨[], by simp [runInputs]⟩
    | cons i rest ih =>
        intro s
        obtain ⟨t0, ht0⟩ := step i s
        obtain ⟨t1, ht1⟩ := ih (processThought i s).2
        exact ⟨t0 ++ t1, by simp [runInputs, ht1, ht0]⟩

/-- Witness for C8, at the branch-registering input from the empty session. -/
theorem claim_C8_immutableRecords_witness :
    validateThoughtData exBranch = Except.ok tdBranch ∧
    (∃ v, (processThought exBranch emptyState).2.thoughtHistory =
        emptyState.thoughtHistory ++ [v] ∧
      v.thought = tdBranch.thought ∧ v.thoughtNumber = tdBranch.thoughtNumber ∧
      v.nextThoughtNeeded = tdBranch.nextThoughtNeeded ∧
      v.isRevision = tdBranch.isRevision ∧
      v.revisesThought = tdBranch.revisesThought ∧
      v.branchFromThought = tdBranch.branchFromThought ∧ v.branchId = tdBranch.branchId ∧
      v.needsMoreThoughts = tdBranch.needsMoreThoughts ∧
      ((truthy v.branchFromThought && truthy v.branchId) = true →
        branchSeq (processThought exBranch emptyState).2.branches (jsTemplate v.branchId) =
          branchSeq emptyState.branches (jsTemplate v.branchId) ++ [v])) :=
  ⟨by rfl, claim_C8_immutableRecords.1 exBranch emptyState tdBranch (by rfl)⟩

/-- Claim C9: response construction is a pure read of the session state —
the state a successful call returns is exactly the appended state (building
the envelope changes nothing further), the envelope's branch list and
history length are exactly `summaryOf` of that state, and evaluating
`summaryOf` again on the same state yields the same values. -/
theorem claim_C9_summaryPure (i : RawInput) (s : SessionState) (td : ThoughtData)
    (h : validateThoughtData i = Except.ok td) :
    (processThought i s).2 = appendRecord (correctTotals td) s ∧
    (processThought i s).1.content = [ContentItem.mk ("text") (ResponseBody.success
      (correctTotals td).thoughtNumber (correctTotals td).totalThoughts
      (correctTotals td).nextThoughtNeeded
      (summaryOf (processThought i s).2).1 (summaryOf (processThought i s).2).2)] ∧
    summaryOf (processThought i s).2 = summaryOf (appendRecord (correctTotals td) s) := by
  have hs := processThought_ok i s td h
  refine ⟨by rw [hs], ?_, by rw [hs]⟩
  rw [hs]
  rfl

/-- Witness for C9, at the first scenario input. -/
theorem claim_C9_summaryPure_witness :
    validateThoughtData exStep1 = Except.ok tdStep1 ∧
    ((processThought exStep1 emptyState).2 =
        appendRecord (correctTotals tdStep1) emptyState ∧
     (processThought exStep1 emptyState).1.content = [ContentItem.mk ("text")
       (ResponseBody.success (correctTotals tdStep1).thoughtNumber
         (correctTotals tdStep1).totalThoughts (correctTotals tdStep1).nextThoughtNeeded
         (summaryOf (processThought exStep1 emptyState).2).1
         (summaryOf (processThought exStep1 emptyState).2).2)] ∧
     summaryOf (processThought exStep1 emptyState).2 =
        summaryOf (appendRecord (correctTotals tdStep1) emptyState)) :=
  ⟨by rfl, claim_C9_summaryPure exStep1 emptyState tdStep1 (by rfl)⟩
